import Mathlib

/-!
Verification development for the per-record orchestration logic of `RNAfold.c`
(src/src/bin/RNAfold.c).  The definitions below are shallow embeddings of the
functions of that file: pure values become Lean values, the mutable state of
the C code becomes explicit state passing, and the external ViennaRNA library
routines (the folding engine, `vrna_filename_sanitize`, `sscanf`,
`vrna_sc_add_hi_motif`, ...) are abstracted as function parameters, exactly as
the specification treats them (external collaborators, not reimplemented
here).  Machine `double`s are modelled as rationals.
-/

namespace RNAfold

/-! ## Options (struct options, RNAfold.c lines 50-78) and their defaults
(init_default_options, lines 298-327).  C `int` flags become `Bool`, C
pointers that are only tested for presence become `Option _`. -/

structure Options where
  filename_full : Bool
  filename_delim : Option String
  pf : Bool
  noPS : Bool
  noconv : Bool
  lucky : Bool
  MEA : Bool
  MEAgamma : ℚ
  bppmThreshold : ℚ
  verbose : Bool
  ligandMotif : Option String
  cmds : Bool
  constraint_file : Option String
  constraint_batch : Bool
  constraint_enforce : Bool
  constraint_canonical : Bool
  shape : Bool
  shape_file : Option String
  shape_method : Option String
  shape_conversion : Option String
  tofile : Bool
  output_file : Option String
  deriving DecidableEq

/-- init_default_options (RNAfold.c lines 298-327): the literal defaults,
in particular `bppmThreshold = 1e-5` and `MEAgamma = 1.`. -/
def init_default_options : Options :=
  { filename_full := false
    filename_delim := none
    pf := false
    noPS := false
    noconv := false
    lucky := false
    MEA := false
    MEAgamma := 1
    bppmThreshold := 1/100000
    verbose := false
    ligandMotif := none
    cmds := false
    constraint_file := none
    constraint_batch := false
    constraint_enforce := false
    constraint_canonical := false
    shape := false
    shape_file := none
    shape_method := none
    shape_conversion := none
    tofile := false
    output_file := none }

/-! ## Dot-plot threshold clamping (main, RNAfold.c lines 386-388) -/

/-- MAX2 macro of ViennaRNA utils.h: `((A) > (B) ? (A) : (B))`. -/
def MAX2 (a b : ℚ) : ℚ := if a > b then a else b

/-- MIN2 macro of ViennaRNA utils.h: `((A) < (B) ? (A) : (B))`. -/
def MIN2 (a b : ℚ) : ℚ := if a < b then a else b

/-- RNAfold.c lines 386-388: when `--bppmThreshold` was given, the stored
threshold is `MIN2(1., MAX2(0., arg))`; otherwise the default set by
init_default_options is kept. -/
def bppm_threshold (bppmThreshold_given : Bool) (arg : ℚ) (opt : Options) : ℚ :=
  if bppmThreshold_given then MIN2 1 (MAX2 0 arg) else opt.bppmThreshold

/-! ## Probability-list entries (vrna_ep_t) and ligand motifs (vrna_sc_motif_t) -/

/-- The `type` tags of vrna_ep_t entries (VRNA_PLIST_TYPE_*). -/
inductive EpType
  | basic
  | gquad
  | hMotif
  | iMotif
  | udMotif
  | stack
  deriving DecidableEq

/-- vrna_ep_t: one probability-list element (positions i, j, probability p,
provenance tag). -/
structure Ep where
  i : ℕ
  j : ℕ
  p : ℚ
  type : EpType
  deriving DecidableEq

/-- The list terminator written by the C code: an element with `i = 0`. -/
def sentinelEp : Ep := ⟨0, 0, 0, EpType.basic⟩

/-- vrna_sc_motif_t: one detected ligand-motif occurrence; a hairpin
occurrence has `i = k`, an interior occurrence has the two regions (i,j)
and (k,l). -/
structure ScMotif where
  i : ℕ
  j : ℕ
  k : ℕ
  l : ℕ
  deriving DecidableEq

/-- The entries the loop body of add_ligand_motifs_to_list (RNAfold.c lines
1241-1272) appends for one motif occurrence: one `H_MOTIF` entry of weight
0.95*0.95 for a hairpin occurrence (`i == k`), two `I_MOTIF` entries of the
same weight for an interior occurrence. -/
def motif_entries (m : ScMotif) : List Ep :=
  if m.i = m.k then
    [⟨m.i, m.j, (95/100) * (95/100), EpType.hMotif⟩]
  else
    [⟨m.i, m.j, (95/100) * (95/100), EpType.iMotif⟩,
     ⟨m.k, m.l, (95/100) * (95/100), EpType.iMotif⟩]

/-- Content-level model of add_ligand_motifs_to_list (RNAfold.c lines
1224-1278): the existing entries up to the sentinel (`for (size = 0, ptr =
(*list); ptr->i; size++, ptr++)`) are kept in place, the motif entries are
appended in detection order (`for (m_ptr = motifs; m_ptr->i; m_ptr++)`), and
the terminator is rewritten after the last appended entry (lines 1275-1277).
The returned list holds the meaningful entries, i.e. everything in front of
the recomputed `i = 0` terminator. -/
def add_ligand_motifs_to_list (list : List Ep) (motifs : List ScMotif) : List Ep :=
  (list.takeWhile fun e => e.i ≠ 0) ++
    ((motifs.takeWhile fun m => m.i ≠ 0).flatMap motif_entries)

/-- The set of (i, j, tag) triples stored in a sentinel-terminated
probability list: everything in front of the first `i = 0` element. -/
def plist_triples (l : List Ep) : Finset (ℕ × ℕ × EpType) :=
  ((l.takeWhile fun e => e.i ≠ 0).map fun e => (e.i, e.j, e.type)).toFinset

/-! ## Allocation-tracking model of add_ligand_motifs_to_list

The content model above ignores the buffer capacity.  The model below also
tracks the number of allocated slots, the running counter `cnt` and the
chunk bound `add`, exactly as the C code does; a write beyond the allocated
capacity (a heap overflow in C) yields `none`. -/

/-- A store into an allocated buffer: fails (heap overflow) when the index
is outside the allocation. -/
def bufWrite (buf : List Ep) (idx : ℕ) (e : Ep) : Option (List Ep) :=
  if idx < buf.length then some (buf.set idx e) else none

/-- vrna_realloc: the first `min(old, new)` slots keep their contents, the
remaining new slots are uninitialised (modelled as sentinel junk). -/
def reallocBuf (buf : List Ep) (newLen : ℕ) : List Ep :=
  buf.take newLen ++ List.replicate (newLen - buf.length) sentinelEp

/-- The motif loop of add_ligand_motifs_to_list (RNAfold.c lines 1241-1272)
with explicit capacity: iterates until the motif terminator, writes each
appended entry at `size + cnt`, and grows the buffer by a chunk of 10 when
`cnt` reaches `add` after the entries of a motif have been written. -/
def motifs_loop_alloc :
    List ScMotif → List Ep → ℕ → ℕ → ℕ → Option (List Ep × ℕ × ℕ)
  | [], buf, _, cnt, add => some (buf, cnt, add)
  | m :: ms, buf, size, cnt, add =>
    if m.i = 0 then
      some (buf, cnt, add)
    else if m.i = m.k then
      match bufWrite buf (size + cnt) ⟨m.i, m.j, (95/100) * (95/100), EpType.hMotif⟩ with
      | none => none
      | some buf1 =>
        let cnt1 := cnt + 1
        if cnt1 = add then
          motifs_loop_alloc ms (reallocBuf buf1 (size + (add + 10) + 1)) size cnt1 (add + 10)
        else
          motifs_loop_alloc ms buf1 size cnt1 add
    else
      match bufWrite buf (size + cnt) ⟨m.i, m.j, (95/100) * (95/100), EpType.iMotif⟩ with
      | none => none
      | some buf1 =>
        let cnt1 := cnt + 1
        match bufWrite buf1 (size + cnt1) ⟨m.k, m.l, (95/100) * (95/100), EpType.iMotif⟩ with
        | none => none
        | some buf2 =>
          let cnt2 := cnt1 + 1
          if cnt2 = add then
            motifs_loop_alloc ms (reallocBuf buf2 (size + (add + 10) + 1)) size cnt2 (add + 10)
          else
            motifs_loop_alloc ms buf2 size cnt2 add

/-- add_ligand_motifs_to_list (RNAfold.c lines 1224-1278) with explicit
allocation tracking: scan the current size, grow the buffer to
`size + add + 1` slots with `add = 10`, run the motif loop, shrink to the
actual needs `size + cnt + 1`, and rewrite the terminator at `size + cnt`.
`none` means the C code wrote outside its allocation (undefined behaviour). -/
def add_ligand_motifs_to_list_alloc (list : List Ep) (motifs : List ScMotif) :
    Option (List Ep) :=
  let size := (list.takeWhile fun e => e.i ≠ 0).length
  let add := 10
  let buf := reallocBuf list (size + add + 1)
  match motifs_loop_alloc motifs buf size 0 add with
  | none => none
  | some (buf1, cnt, _) =>
    bufWrite (reallocBuf buf1 (size + cnt + 1)) (size + cnt) sentinelEp

/-! ## Ligand-motif specification parsing (add_ligand_motif, RNAfold.c lines
983-1045)

The C code copies the characters up to the first comma (uppercased) into
`seq`, the characters up to the second comma into `str`, and hands whatever
follows the second comma to `sscanf("%f")`.  `sscanf` is an external C
library routine and is abstracted as a predicate on the remaining
characters.  The model is faithful for motif strings containing at least
two commas; with fewer commas the C pointer increments step past the
terminating NUL (undefined behaviour), which is outside the modelled
domain. -/

/-- The three raw fields the two parse loops of add_ligand_motif extract
from the motif string (lines 1002-1020). -/
structure MotifFields where
  seq : List Char
  struc : List Char
  energyTok : List Char
  deriving DecidableEq

/-- add_ligand_motif, parsing part (RNAfold.c lines 1002-1020): `seq` is the
uppercased text before the first comma, `struc` the text between the first
and the second comma, `energyTok` the text after the second comma. -/
def add_ligand_motif_fields (motifstring : List Char) : MotifFields :=
  let seq := (motifstring.takeWhile fun c => c ≠ ',').map Char.toUpper
  let rest1 := ((motifstring.dropWhile fun c => c ≠ ',').drop 1)
  let struc := rest1.takeWhile fun c => c ≠ ','
  let energyTok := (rest1.dropWhile fun c => c ≠ ',').drop 1
  ⟨seq, struc, energyTok⟩

/-- add_ligand_motif, validation part (RNAfold.c lines 1021-1034): the
energy token must parse (`sscanf(ptr, "%f", &energy) == 1`, abstracted as
`sscanf_ok`), sequence and structure must have equal lengths, and the
sequence must be nonempty; each failed check emits its warning and sets the
error flag.  Returns the error flag together with the emitted warnings. -/
def add_ligand_motif_error (sscanf_ok : List Char → Bool) (motifstring : List Char) :
    Bool × List String :=
  let f := add_ligand_motif_fields motifstring
  let w1 : List String :=
    if !sscanf_ok f.energyTok then ["Energy contribution in ligand motif missing!"] else []
  let w2 : List String :=
    if f.seq.length ≠ f.struc.length then
      ["Sequence and structure length in ligand motif have unequal lengths!"] else []
  let w3 : List String :=
    if f.seq.length = 0 then ["Sequence length in ligand motif is zero!"] else []
  ((!sscanf_ok f.energyTok) || (decide (f.seq.length ≠ f.struc.length)) ||
     (decide (f.seq.length = 0)),
   w1 ++ w2 ++ w3)

/-! ## Events and fatal errors of the per-record pipeline

`vrna_message_error` terminates the process with a non-zero exit status, so
a `Fatal` result cuts the record's trace short; `vrna_message_warning`
writes to the diagnostic stream and continues. -/

/-- Observable effects of processing one record, in program order. -/
inductive Event
  | fileOpened (name : String)
  | warningMsg (msg : String)
  | constraintFromFile (file : String)
  | constraintFromDB (db : String) (enforce canonical : Bool)
  | shapeApplied
  | motifRegistered
  | commandsApplied
  | mfeComputed
  | headerPrinted
  | sequencePrinted (s : String)
  | mfePrinted (e : ℚ)
  | plotFile (name : String)
  | evalStructureAt (dangles : ℕ)
  | rescaleWith (ref : ℚ)
  | pfCalledAt (dangles : ℕ)
  deriving DecidableEq

/-- The fatal (process-terminating, non-zero exit) errors of the per-record
pipeline. -/
inductive Fatal
  | inputOutputSame
  | constraintTooLong
  | infeasibleConstraints (seq : String)
  deriving DecidableEq

/-- The events emitted for the `--motif` option (add_ligand_motif, RNAfold.c
lines 983-1045): the per-check warnings, then either the skip warning (when
the error flag is set, or when the external `vrna_sc_add_hi_motif` call
fails, abstracted as `register_ok`) or a successful registration.  The
verbose-only informational line (line 1037) is not modelled. -/
def motif_events (sscanf_ok : List Char → Bool) (register_ok : Bool)
    (motifstring : List Char) : List Event :=
  let r := add_ligand_motif_error sscanf_ok motifstring
  (r.2.map Event.warningMsg) ++
    (if r.1 || !register_ok then
      [Event.warningMsg "Malformatted ligand motif! Skipping stabilizing motif."]
    else
      [Event.motifRegistered])

/-! ## Output-path derivation -/

/-- Substitution of the first two `%s` conversions of a printf pattern, as
used by `vrna_strdup_printf(pattern, id, filename_delim)` for the fixed
patterns of RNAfold.c. -/
def format2 (pattern a b : String) : String :=
  match pattern.splitOn "%s" with
  | [] => ""
  | [p0] => p0
  | p0 :: p1 :: rest => p0 ++ a ++ p1 ++ b ++ String.intercalate "%s" rest

/-- generate_filename (RNAfold.c lines 240-258): with an id, instantiate the
pattern with id and delimiter and sanitize the result
(`vrna_filename_sanitize` is an external library routine, abstracted as
`san`); without an id, return the default name verbatim.  No comparison
with any input path happens here. -/
def generate_filename (san : String → Option String → String)
    (pattern def_name : String) (id : Option String) (delim : Option String) : String :=
  match id with
  | some i => san (format2 pattern i (delim.getD "")) delim
  | none => def_name

/-- The per-record output file name in `--outfile` mode (process_input,
RNAfold.c lines 566-571): the explicit output file if given, else
`<SEQ_ID>.fold`, else the fixed default. -/
def tofile_basename (opt : Options) (SEQ_ID : Option String) : String :=
  match opt.output_file with
  | some o => o
  | none =>
    match SEQ_ID with
    | some id => id ++ ".fold"
    | none => "RNAfold_output.fold"

/-- process_input, output setup (RNAfold.c lines 564-585): in `--outfile`
mode the name is built, sanitized, compared with the input file name
(identical names are fatal, line 577-578) and only then opened in append
mode, which creates the file; without `--outfile` the output goes to
stdout and no file is involved. -/
def output_setup (san : String → Option String → String) (opt : Options)
    (input_filename : Option String) (SEQ_ID : Option String) :
    List Event × Option Fatal :=
  if opt.tofile then
    if input_filename = some (san (tofile_basename opt SEQ_ID) opt.filename_delim) then
      ([], some Fatal.inputOutputSame)
    else
      ([Event.fileOpened (san (tofile_basename opt SEQ_ID) opt.filename_delim)], none)
  else ([], none)

/-! ## Constraint application (apply_constraints, RNAfold.c lines 867-909) -/

/-- Modelled from the spec: the library routine `vrna_constraints_add` (not
part of src/) interprets a dot-bracket constraint shorter than the sequence
as if right-padded with unconstrained positions up to the sequence length. -/
def padded_constraint (cstruc : String) (len : ℕ) : String :=
  cstruc ++ String.mk (List.replicate (len - cstruc.length) '.')

/-- apply_constraints (RNAfold.c lines 867-909): a constraint file wins and
is applied directly; otherwise the inline pseudo dot-bracket extracted from
the record rest (`vrna_extract_record_rest_structure`, external, its result
passed as `cstruc`) is length-checked against the sequence: an empty or
missing constraint and a too-short constraint only warn, a too-long
constraint is fatal (`vrna_message_error`, line 891); a present constraint
is then applied with the enforce/canonical option bits. -/
def apply_constraints_model (fc_length : ℕ) (constraints_file : Option String)
    (cstruc : Option String) (enforceConstraints canonicalBPonly : Bool) :
    List Event × Option Fatal :=
  match constraints_file with
  | some f => ([Event.constraintFromFile f], none)
  | none =>
    let cl : ℕ := match cstruc with
      | some c => c.length
      | none => 0
    let warn : List Event :=
      if cl = 0 then [Event.warningMsg "structure constraint is missing"]
      else if cl < fc_length then
        [Event.warningMsg "structure constraint is shorter than sequence"]
      else []
    if cl > fc_length then (warn, some Fatal.constraintTooLong)
    else
      match cstruc with
      | some c => (warn ++ [Event.constraintFromDB c enforceConstraints canonicalBPonly], none)
      | none => (warn, none)

/-! ## Partition-function preamble (process_input, RNAfold.c lines 692-708) -/

/-- The reserved infeasibility sentinel: `(double)(INF / 100.)` with
`INF = 10000000`, i.e. 100000. -/
def infeasible_sentinel : ℚ := 100000

/-- The partition-function preamble (RNAfold.c lines 692-708): with an
odd dangle model the dangle field is saved, set to 2, the MFE structure is
re-evaluated (`vrna_eval_structure`, external, abstracted as `eval_energy`
applied to the dangle setting in effect) into `min_en`, and the dangle field
is restored; then `vrna_exp_params_rescale(vc, &min_en)` uses the (possibly
re-evaluated) `min_en`, and `vrna_pf` runs under the restored dangle
setting. -/
def pf_block (dangles : ℕ) (min_en : ℚ) (eval_energy : ℕ → ℚ) : List Event :=
  if dangles % 2 = 1 then
    let dang_bak := dangles
    let d := 2
    let min_en1 := eval_energy d
    let d1 := dang_bak
    [Event.evalStructureAt d, Event.rescaleWith min_en1, Event.pfCalledAt d1]
  else
    [Event.rescaleWith min_en, Event.pfCalledAt dangles]

/-! ## The per-record pipeline (process_input loop body, RNAfold.c lines
527-819)

External data that the loop obtains per record is passed in: the sanitizer,
the `sscanf` abstraction, the success of motif registration, the global
`fold_constrained` flag, the dangle setting of the model details, the input
file name, the derived SEQ_ID, the extracted inline constraint, the
sequence length, the original-case sequence,MFE energy returned by
`vrna_mfe`, and the structure re-evaluation function.  The returned trace
lists the record's observable effects in order; a `Fatal` value means
`vrna_message_error` terminated the process there (non-zero exit).  The
centroid/MEA/dot-plot effects of the `compute_bpp` branch are modelled
separately (`compute_MEA_model` below). -/

/-- One iteration of the process_input record loop (RNAfold.c lines
527-819), up to and including the partition-function preamble. -/
def process_record (san : String → Option String → String)
    (sscanf_ok : List Char → Bool) (register_ok : Bool)
    (fold_constrained : Bool) (opt : Options) (dangles : ℕ)
    (input_filename : Option String) (SEQ_ID : Option String)
    (cstruc : Option String) (seqLen : ℕ) (orig_sequence : String)
    (mfe : ℚ) (eval_energy : ℕ → ℚ) : List Event × Option Fatal :=
  let os := output_setup san opt input_filename SEQ_ID
  match os.2 with
  | some f => (os.1, some f)
  | none =>
    let ac : List Event × Option Fatal :=
      if fold_constrained then
        apply_constraints_model seqLen opt.constraint_file cstruc
          opt.constraint_enforce opt.constraint_canonical
      else ([], none)
    match ac.2 with
    | some f => (os.1 ++ ac.1, some f)
    | none =>
      let ev3 := if opt.shape then [Event.shapeApplied] else []
      let ev4 := match opt.ligandMotif with
        | some ms => motif_events sscanf_ok register_ok ms.data
        | none => []
      let ev5 := if opt.cmds then [Event.commandsApplied] else []
      let min_en := mfe
      let pre := os.1 ++ ac.1 ++ ev3 ++ ev4 ++ ev5 ++ [Event.mfeComputed]
      if ((fold_constrained && opt.constraint_file.isSome) || opt.cmds)
          && decide (min_en = infeasible_sentinel) then
        (pre, some (Fatal.infeasibleConstraints orig_sequence))
      else
        let ev7 := [Event.headerPrinted, Event.sequencePrinted orig_sequence]
        let ev8 :=
          if !opt.lucky then
            [Event.mfePrinted min_en] ++
              (if !opt.noPS then
                [Event.plotFile
                  (generate_filename san "%s%sss.ps" "rna.ps" SEQ_ID opt.filename_delim)]
              else [])
          else []
        let ev9 := if opt.pf then pf_block dangles min_en eval_energy else []
        (pre ++ ev7 ++ ev8 ++ ev9, none)

/-! ## The record loop trip count (RNAfold.c lines 527, 848-849) -/

/-- The break condition at the bottom of the record loop (RNAfold.c lines
848-849): SHAPE data active, or a constraint file given while batch
constraint mode is off. -/
def record_loop_break (opt : Options) : Bool :=
  opt.shape || (opt.constraint_file.isSome && !opt.constraint_batch)

/-- Number of records processed from a stream of successfully readable
records (RNAfold.c lines 527-863): each available record is processed, and
after a record the loop breaks when `record_loop_break` holds. -/
def records_processed (opt : Options) : List String → ℕ
  | [] => 0
  | _ :: rest => if record_loop_break opt then 1 else 1 + records_processed opt rest

/-! ## MEA computation (compute_MEA, RNAfold.c lines 912-952) -/

/-- Which MEA optimization routine compute_MEA dispatches to. -/
inductive MEAVariant
  | seqAware
  | plain
  deriving DecidableEq

/-- The mutable part of `fc->exp_params->model_details` that compute_MEA
touches. -/
structure ExpMD where
  gquad : Bool
  deriving DecidableEq

/-- The observable outcome of compute_MEA. -/
structure MEATrace where
  plistGquad : Bool
  plistThreshold : ℚ
  variant : MEAVariant
  mdAfter : ExpMD
  deriving DecidableEq

/-- compute_MEA (RNAfold.c lines 912-952): save the quadruplex flag, clear
it, build the probability list with threshold `1e-4 / (1 + MEAgamma)` while
it is cleared, restore it, then call the sequence-aware `MEA_seq` when the
saved flag was set and the plain `MEA` otherwise. -/
def compute_MEA_model (md : ExpMD) (MEAgamma : ℚ) : MEATrace :=
  let gq := md.gquad
  let md1 : ExpMD := { md with gquad := false }
  let plistGq := md1.gquad
  let thr := (1/10000) / (1 + MEAgamma)
  let md2 : ExpMD := { md1 with gquad := gq }
  let variant := if gq then MEAVariant.seqAware else MEAVariant.plain
  { plistGquad := plistGq, plistThreshold := thr, variant := variant, mdAfter := md2 }

/-! ## Helper lemmas -/

/-- takeWhile runs through a prefix all of whose elements satisfy the
predicate. -/
theorem takeWhile_append_all {α : Type} (p : α → Bool) {l₁ : List α} (l₂ : List α)
    (h : ∀ x ∈ l₁, p x = true) :
    (l₁ ++ l₂).takeWhile p = l₁ ++ l₂.takeWhile p := by
  induction l₁ with
  | nil => simp
  | cons a t ih =>
    have ha : p a = true := h a (List.mem_cons_self a t)
    simp [List.takeWhile_cons, ha, ih (fun x hx => h x (List.mem_cons_of_mem a hx))]

/-- The output-setup step emits either nothing or a single file-open
event. -/
theorem output_setup_cases (san : String → Option String → String) (opt : Options)
    (input_filename SEQ_ID : Option String) :
    (output_setup san opt input_filename SEQ_ID).1 = [] ∨
    ∃ n, (output_setup san opt input_filename SEQ_ID).1 = [Event.fileOpened n] := by
  unfold output_setup
  split_ifs <;> simp

/-- When to-file mode is on and the collision check passed, the output file
has been opened (created). -/
theorem output_setup_tofile (san : String → Option String → String) (opt : Options)
    (input_filename SEQ_ID : Option String) (hto : opt.tofile = true)
    (hos : (output_setup san opt input_filename SEQ_ID).2 = none) :
    (output_setup san opt input_filename SEQ_ID).1
      = [Event.fileOpened (san (tofile_basename opt SEQ_ID) opt.filename_delim)] := by
  unfold output_setup at hos ⊢
  rw [if_pos hto] at hos ⊢
  split_ifs at hos ⊢
  simp_all

/-- Every event of the constraint-application step is a warning or a
constraint registration. -/
theorem apply_constraints_events_shape (fc_length : ℕ)
    (constraints_file cstruc : Option String) (enf can : Bool) :
    ∀ e ∈ (apply_constraints_model fc_length constraints_file cstruc enf can).1,
      (∃ m, e = Event.warningMsg m) ∨ (∃ f, e = Event.constraintFromFile f) ∨
      (∃ c a b, e = Event.constraintFromDB c a b) := by
  intro e he
  unfold apply_constraints_model at he
  cases constraints_file with
  | some f =>
    simp at he
    exact Or.inr (Or.inl ⟨f, he⟩)
  | none =>
    cases cstruc with
    | none =>
      simp only [] at he
      split_ifs at he <;> simp at he <;>
        first
          | exact Or.inl ⟨_, rfl⟩
          | exact Or.inl ⟨_, he⟩
    | some c =>
      simp only [] at he
      split_ifs at he <;> simp at he <;>
        first
          | exact Or.inl ⟨_, rfl⟩
          | exact Or.inr (Or.inr ⟨_, _, _, rfl⟩)
          | (rcases he with rfl | rfl <;>
              first
                | exact Or.inl ⟨_, rfl⟩
                | exact Or.inr (Or.inr ⟨_, _, _, rfl⟩))

/-- Every event of the motif-registration step is a warning or the
successful registration. -/
theorem motif_events_shape (sscanf_ok : List Char → Bool) (register_ok : Bool)
    (ms : List Char) :
    ∀ e ∈ motif_events sscanf_ok register_ok ms,
      (∃ m, e = Event.warningMsg m) ∨ e = Event.motifRegistered := by
  intro e he
  unfold motif_events at he
  simp at he
  rcases he with ⟨m, _, rfl⟩ | he
  · exact Or.inl ⟨m, rfl⟩
  · split_ifs at he <;> simp at he
    · exact Or.inl ⟨_, he⟩
    · exact Or.inr he

/-- A motif specification whose validation failed is skipped with the final
warning and is never registered. -/
theorem motif_events_error (sscanf_ok : List Char → Bool) (register_ok : Bool)
    (ms : List Char) (herr : (add_ligand_motif_error sscanf_ok ms).1 = true) :
    Event.warningMsg "Malformatted ligand motif! Skipping stabilizing motif."
        ∈ motif_events sscanf_ok register_ok ms ∧
    Event.motifRegistered ∉ motif_events sscanf_ok register_ok ms := by
  unfold motif_events
  simp [herr]

/-- Any of the three malformedness conditions of the claim sets the error
flag of add_ligand_motif. -/
theorem add_ligand_motif_error_of_malformed (sscanf_ok : List Char → Bool)
    (ms : List Char)
    (h : (add_ligand_motif_fields ms).seq.length ≠ (add_ligand_motif_fields ms).struc.length ∨
         (add_ligand_motif_fields ms).seq.length = 0 ∨
         sscanf_ok (add_ligand_motif_fields ms).energyTok = false) :
    (add_ligand_motif_error sscanf_ok ms).1 = true := by
  unfold add_ligand_motif_error
  rcases h with h | h | h <;> simp [h]

/-- The output-setup step never emits a structure re-evaluation event. -/
theorem eval_not_in_output_setup (san : String → Option String → String) (opt : Options)
    (input_filename SEQ_ID : Option String) (d : ℕ) :
    Event.evalStructureAt d ∉ (output_setup san opt input_filename SEQ_ID).1 := by
  intro h
  rcases output_setup_cases san opt input_filename SEQ_ID with hc | ⟨n, hc⟩ <;>
    rw [hc] at h <;> simp at h

/-- The constraint-application step never emits a structure re-evaluation
event. -/
theorem eval_not_in_apply_constraints (fc_length : ℕ)
    (constraints_file cstruc : Option String) (enf can : Bool) (d : ℕ) :
    Event.evalStructureAt d
      ∉ (apply_constraints_model fc_length constraints_file cstruc enf can).1 := by
  intro h
  rcases apply_constraints_events_shape fc_length constraints_file cstruc enf can _ h with
    ⟨m, hm⟩ | ⟨f, hm⟩ | ⟨c1, a1, b1, hm⟩ <;> exact Event.noConfusion hm

/-- The motif-registration step never emits a structure re-evaluation
event. -/
theorem eval_not_in_motif_events (sscanf_ok : List Char → Bool) (register_ok : Bool)
    (ms : List Char) (d : ℕ) :
    Event.evalStructureAt d ∉ motif_events sscanf_ok register_ok ms := by
  intro h
  rcases motif_events_shape sscanf_ok register_ok ms _ h with ⟨m, hm⟩ | hm <;>
    exact Event.noConfusion hm

/-- The output-setup step never emits a motif registration. -/
theorem reg_not_in_output_setup (san : String → Option String → String) (opt : Options)
    (input_filename SEQ_ID : Option String) :
    Event.motifRegistered ∉ (output_setup san opt input_filename SEQ_ID).1 := by
  intro h
  rcases output_setup_cases san opt input_filename SEQ_ID with hc | ⟨n, hc⟩ <;>
    rw [hc] at h <;> simp at h

/-- The partition-function preamble never emits a motif registration. -/
theorem reg_not_in_pf_block (dangles : ℕ) (min_en : ℚ) (eval_energy : ℕ → ℚ) :
    Event.motifRegistered ∉ pf_block dangles min_en eval_energy := by
  unfold pf_block
  split <;> simp

/-! ## Theorems for the claims -/

/-- C3: for every MEA computation, compute_MEA selects the sequence-aware
variant exactly when the quadruplex flag of the model is set and the plain
variant otherwise; the probability list handed to either variant is built
while the quadruplex flag is cleared, and the flag is restored to its
original value afterwards. -/
theorem c3_mea_variant_selection (md : ExpMD) (MEAgamma : ℚ) :
    (compute_MEA_model md MEAgamma).variant
        = (if md.gquad then MEAVariant.seqAware else MEAVariant.plain) ∧
    (compute_MEA_model md MEAgamma).plistGquad = false ∧
    (compute_MEA_model md MEAgamma).mdAfter = md := by
  cases md with
  | mk g => cases g <;> simp [compute_MEA_model]

/-- The motif sequence on which add_ligand_motifs_to_list overflows its
allocation: nine hairpin occurrences, one interior occurrence, and one more
hairpin occurrence. -/
def c5_failing_motifs : List ScMotif :=
  [⟨1, 2, 1, 2⟩, ⟨3, 4, 3, 4⟩, ⟨5, 6, 5, 6⟩, ⟨7, 8, 7, 8⟩, ⟨9, 10, 9, 10⟩,
   ⟨11, 12, 11, 12⟩, ⟨13, 14, 13, 14⟩, ⟨15, 16, 15, 16⟩, ⟨17, 18, 17, 18⟩,
   ⟨50, 60, 52, 58⟩, ⟨70, 71, 70, 71⟩]

/-- C5 (code bug): on a sentinel-only list, the nine hairpin occurrences
bring `cnt` to 9; the interior occurrence writes its two entries and makes
`cnt` jump from 9 to 11, skipping over the `cnt == add` growth test with
`add = 10`, so the buffer stays at `size + add + 1 = 11` slots; the final
hairpin occurrence then writes at slot 11, outside the allocation (a heap
overflow, `none` in the model).  The same input without its last occurrence
still succeeds, so the overflow is exactly the missed chunk growth. -/
theorem c5_overflow_at_failing_input :
    add_ligand_motifs_to_list_alloc [sentinelEp] c5_failing_motifs = none ∧
    (add_ligand_motifs_to_list_alloc [sentinelEp]
        (c5_failing_motifs.take 10)).isSome = true := by
  decide

/-- C6: merging occurrence set A and then B into a probability list yields
the same final set of (i, j, tag) triples as merging B and then A. -/
theorem c6_merge_set_commutative (L : List Ep) (A B : List ScMotif) :
    plist_triples (add_ligand_motifs_to_list (add_ligand_motifs_to_list L A) B)
      = plist_triples (add_ligand_motifs_to_list (add_ligand_motifs_to_list L B) A) := by
  unfold plist_triples add_ligand_motifs_to_list
  have hq : ∀ (l : List Ep) (x : Ep),
      x ∈ l.takeWhile (fun e => decide (e.i ≠ 0)) → (decide (x.i ≠ 0)) = true := by
    intro l x hx
    have h := List.mem_takeWhile_imp hx
    exact h
  have key : ∀ (X Y : List ScMotif),
      ((L.takeWhile (fun e => decide (e.i ≠ 0)) ++
          ((X.takeWhile fun m => decide (m.i ≠ 0)).flatMap motif_entries)).takeWhile
            (fun e => decide (e.i ≠ 0)) ++
        ((Y.takeWhile fun m => decide (m.i ≠ 0)).flatMap motif_entries)).takeWhile
          (fun e => decide (e.i ≠ 0))
      = L.takeWhile (fun e => decide (e.i ≠ 0)) ++
        ((X.takeWhile fun m => decide (m.i ≠ 0)).flatMap
            motif_entries).takeWhile (fun e => decide (e.i ≠ 0)) ++
        ((Y.takeWhile fun m => decide (m.i ≠ 0)).flatMap
            motif_entries).takeWhile (fun e => decide (e.i ≠ 0)) := by
    intro X Y
    rw [takeWhile_append_all _ _ (hq L)]
    rw [List.append_assoc]
    rw [takeWhile_append_all _ _ (hq L)]
    rw [takeWhile_append_all _ _ (hq _)]
    exact (List.append_assoc _ _ _).symm
  rw [key A B, key B A]
  ext x
  simp only [List.mem_toFinset, List.mem_map, List.mem_append]
  constructor <;> (rintro ⟨e, he, rfl⟩; exact ⟨e, by tauto, rfl⟩)

/-- C1 counterexample: a record folded under constraint mode with an inline
constraint (a constraint source, extracted from the record rest; no
constraint file, no directive script) for which the engine returns the
reserved infeasible sentinel: the claim demands the fatal
InfeasibleConstraints error, but the record completes without any fatal
error, because the code only performs the sentinel check when a constraint
file or a directive script is active (RNAfold.c line 644). -/
theorem c1_counterexample :
    (process_record (fun s _ => s) (fun _ => false) true true init_default_options 2
        none none (some "....") 4 "ACGU" infeasible_sentinel (fun _ => 0)).2 = none := by
  decide

/-- C1 (amended): provided neither the output setup nor the constraint
application aborted, the fatal InfeasibleConstraints error (naming the
offending sequence) is raised exactly when the engine returned the reserved
infeasible sentinel and (constraint folding with a constraint file, or a
directive script) was active; inline constraints alone do not arm the
check. -/
theorem c1_infeasible_iff (san : String → Option String → String)
    (sscanf_ok : List Char → Bool) (register_ok : Bool)
    (fold_constrained : Bool) (opt : Options) (dangles : ℕ)
    (input_filename SEQ_ID cstruc : Option String) (seqLen : ℕ)
    (orig_sequence : String) (mfe : ℚ) (eval_energy : ℕ → ℚ)
    (hos : (output_setup san opt input_filename SEQ_ID).2 = none)
    (hac : (if fold_constrained then
              apply_constraints_model seqLen opt.constraint_file cstruc
                opt.constraint_enforce opt.constraint_canonical
            else ([], none)).2 = none) :
    (process_record san sscanf_ok register_ok fold_constrained opt dangles
        input_filename SEQ_ID cstruc seqLen orig_sequence mfe eval_energy).2
      = some (Fatal.infeasibleConstraints orig_sequence)
      ↔ (((fold_constrained && opt.constraint_file.isSome) || opt.cmds) = true ∧
          mfe = infeasible_sentinel) := by
  have hbP : (((fold_constrained && opt.constraint_file.isSome) || opt.cmds) &&
      decide (mfe = infeasible_sentinel)) = true ↔
      (((fold_constrained && opt.constraint_file.isSome) || opt.cmds) = true ∧
        mfe = infeasible_sentinel) := by
    simp [Bool.and_eq_true]
  rw [← hbP]
  simp only [process_record]
  rw [hos, hac]
  by_cases hb : (((fold_constrained && opt.constraint_file.isSome) || opt.cmds) &&
      decide (mfe = infeasible_sentinel)) = true
  · simp [hb]
  · simp [hb]

/-- Concrete options with a constraint file, for the C1 witness. -/
def optC1f : Options := { init_default_options with constraint_file := some "constraints.txt" }

/-- C1 witness: with an active constraint file and the sentinel energy, the
record aborts with InfeasibleConstraints naming the sequence. -/
theorem c1_infeasible_iff_witness :
    (process_record (fun s _ => s) (fun _ => false) true true optC1f 2
        none none none 4 "ACGU" infeasible_sentinel (fun _ => 0)).2
      = some (Fatal.infeasibleConstraints "ACGU") :=
  (c1_infeasible_iff (fun s _ => s) (fun _ => false) true true optC1f 2
      none none none 4 "ACGU" infeasible_sentinel (fun _ => 0)
      (by decide) (by decide)).mpr (by decide)

/-- Concrete options for the C2 counterexample: to-file mode without an
explicit output name. -/
def optC2 : Options := { init_default_options with tofile := true }

/-- C2 counterexample: a record with an inline constraint of length 12
against a sequence of length 10, processed in to-file mode.  The record
does abort with the fatal too-long constraint error, but an output file for
the record has already been created: the file is opened (in append mode,
creating it) before the constraint length check runs, contradicting the
claim that no output file is created for the record. -/
theorem c2_counterexample :
    (process_record (fun s _ => s) (fun _ => false) true true optC2 2
        (some "in.fa") none (some "............") 10 "ACGUACGUAC" 0 (fun _ => 0)).2
      = some Fatal.constraintTooLong ∧
    Event.fileOpened "RNAfold_output.fold" ∈
      (process_record (fun s _ => s) (fun _ => false) true true optC2 2
        (some "in.fa") none (some "............") 10 "ACGUACGUAC" 0 (fun _ => 0)).1 := by
  decide

/-- C2 (amended): for a record folded with an inline constraint and no
constraint file, a constraint strictly longer than the sequence aborts the
record with the fatal too-long error (non-zero exit) before the record
header, sequence or folding output is produced — though in to-file mode the
per-record output file has already been created before the check; a
constraint strictly shorter than the sequence only emits a recoverable
warning, the constraint is applied (interpreted by the library as
right-padded unconstrained, so the padded constraint spans the sequence)
and folding proceeds. -/
theorem c2_constraint_length (san : String → Option String → String)
    (sscanf_ok : List Char → Bool) (register_ok : Bool)
    (fold_constrained : Bool) (opt : Options) (dangles : ℕ)
    (input_filename SEQ_ID cstruc : Option String) (seqLen : ℕ)
    (orig_sequence : String) (mfe : ℚ) (eval_energy : ℕ → ℚ) (c : String)
    (hfc : fold_constrained = true) (hcf : opt.constraint_file = none)
    (hos : (output_setup san opt input_filename SEQ_ID).2 = none)
    (hc : cstruc = some c) :
    (c.length > seqLen →
        (process_record san sscanf_ok register_ok fold_constrained opt dangles
            input_filename SEQ_ID cstruc seqLen orig_sequence mfe eval_energy).2
          = some Fatal.constraintTooLong ∧
        Event.headerPrinted ∉ (process_record san sscanf_ok register_ok fold_constrained
            opt dangles input_filename SEQ_ID cstruc seqLen orig_sequence mfe eval_energy).1 ∧
        Event.mfeComputed ∉ (process_record san sscanf_ok register_ok fold_constrained
            opt dangles input_filename SEQ_ID cstruc seqLen orig_sequence mfe eval_energy).1 ∧
        (opt.tofile = true →
          ∃ n, Event.fileOpened n ∈ (process_record san sscanf_ok register_ok fold_constrained
            opt dangles input_filename SEQ_ID cstruc seqLen orig_sequence mfe eval_energy).1)) ∧
    (0 < c.length → c.length < seqLen →
        Event.warningMsg "structure constraint is shorter than sequence"
            ∈ (process_record san sscanf_ok register_ok fold_constrained opt dangles
                input_filename SEQ_ID cstruc seqLen orig_sequence mfe eval_energy).1 ∧
        Event.constraintFromDB c opt.constraint_enforce opt.constraint_canonical
            ∈ (process_record san sscanf_ok register_ok fold_constrained opt dangles
                input_filename SEQ_ID cstruc seqLen orig_sequence mfe eval_energy).1 ∧
        Event.mfeComputed ∈ (process_record san sscanf_ok register_ok fold_constrained
            opt dangles input_filename SEQ_ID cstruc seqLen orig_sequence mfe eval_energy).1 ∧
        (process_record san sscanf_ok register_ok fold_constrained opt dangles
            input_filename SEQ_ID cstruc seqLen orig_sequence mfe eval_energy).2
          ≠ some Fatal.constraintTooLong ∧
        (padded_constraint c seqLen).length = seqLen) := by
  subst hfc
  subst hc
  constructor
  · intro hlong
    have h0 : ¬(c.length = 0) := by omega
    have h1 : ¬(c.length < seqLen) := by omega
    have hacEq : apply_constraints_model seqLen opt.constraint_file (some c)
        opt.constraint_enforce opt.constraint_canonical
          = ([], some Fatal.constraintTooLong) := by
      rw [hcf]
      simp [apply_constraints_model, h0, h1, hlong]
    have hres : process_record san sscanf_ok register_ok true opt dangles
        input_filename SEQ_ID (some c) seqLen orig_sequence mfe eval_energy
          = ((output_setup san opt input_filename SEQ_ID).1, some Fatal.constraintTooLong) := by
      simp only [process_record]
      rw [hos]
      simp [hacEq]
    rw [hres]
    refine ⟨rfl, ?_, ?_, ?_⟩
    · rcases output_setup_cases san opt input_filename SEQ_ID with h | ⟨n, h⟩ <;> simp [h]
    · rcases output_setup_cases san opt input_filename SEQ_ID with h | ⟨n, h⟩ <;> simp [h]
    · intro hto
      rw [output_setup_tofile san opt input_filename SEQ_ID hto hos]
      exact ⟨san (tofile_basename opt SEQ_ID) opt.filename_delim, by simp⟩
  · intro hpos hshort
    have h0 : ¬(c.length = 0) := by omega
    have hacEq : apply_constraints_model seqLen opt.constraint_file (some c)
        opt.constraint_enforce opt.constraint_canonical
          = ([Event.warningMsg "structure constraint is shorter than sequence",
              Event.constraintFromDB c opt.constraint_enforce opt.constraint_canonical],
             none) := by
      rw [hcf]
      simp [apply_constraints_model, h0, hshort, Nat.not_lt.mpr (Nat.le_of_lt hshort)]
    have hpad : (padded_constraint c seqLen).length = seqLen := by
      have hle : c.data.length ≤ seqLen := Nat.le_of_lt hshort
      simp [padded_constraint]
      omega
    refine ⟨?_, ?_, ?_, ?_, hpad⟩
    all_goals simp only [process_record]
    all_goals rw [hos]
    all_goals simp [hacEq]
    all_goals try (split <;> simp)

/-- C8 counterexample: an input file literally named like the default
structure-plot file.  The record is processed with default options
(SEQ_ID absent, plotting on): generate_filename resolves the plot output to
the very same name "rna.ps" as the declared input file, no fatal error is
raised, and the plot is written over the input — the claim promises a fatal
abort whenever a resolved per-record output name equals the input name. -/
theorem c8_counterexample :
    (process_record (fun s _ => s) (fun _ => false) true false init_default_options 2
        (some "rna.ps") none none 4 "ACGU" 0 (fun _ => 0)).2 = none ∧
    Event.plotFile "rna.ps" ∈ (process_record (fun s _ => s) (fun _ => false) true false
        init_default_options 2 (some "rna.ps") none none 4 "ACGU" 0 (fun _ => 0)).1 := by
  decide

/-- C8 (amended): only the per-record output file of to-file mode is
compared with the input file name: when the sanitized name equals the input
file name, the program aborts with the fatal collision error before
creating the file and before writing anything (the trace is empty). -/
theorem c8_tofile_collision_fatal (san : String → Option String → String)
    (sscanf_ok : List Char → Bool) (register_ok : Bool)
    (fold_constrained : Bool) (opt : Options) (dangles : ℕ)
    (input_filename SEQ_ID cstruc : Option String) (seqLen : ℕ)
    (orig_sequence : String) (mfe : ℚ) (eval_energy : ℕ → ℚ)
    (hto : opt.tofile = true)
    (hcol : input_filename = some (san (tofile_basename opt SEQ_ID) opt.filename_delim)) :
    process_record san sscanf_ok register_ok fold_constrained opt dangles
        input_filename SEQ_ID cstruc seqLen orig_sequence mfe eval_energy
      = ([], some Fatal.inputOutputSame) := by
  simp [process_record, output_setup, hto, hcol]

/-- Concrete options for the C8 witness: to-file mode with an explicit
output file. -/
def optC8w : Options :=
  { init_default_options with tofile := true, output_file := some "x.fold" }

/-- C8 witness: when the per-record output file name collides with the
input file name, processing aborts fatally with an empty trace. -/
theorem c8_tofile_collision_fatal_witness :
    process_record (fun s _ => s) (fun _ => false) true false optC8w 2
        (some "x.fold") none none 4 "ACGU" 0 (fun _ => 0)
      = ([], some Fatal.inputOutputSame) :=
  c8_tofile_collision_fatal (fun s _ => s) (fun _ => false) true false optC8w 2
    (some "x.fold") none none 4 "ACGU" 0 (fun _ => 0) rfl rfl

/-- A concrete option set with SHAPE data active. -/
def optC9 : Options := { init_default_options with shape := true }

/-- C9 counterexample: with SHAPE active the claim promises that exactly one
record is processed for every input stream, but a stream yielding no record
processes zero records. -/
theorem c9_counterexample :
    record_loop_break optC9 = true ∧ records_processed optC9 ([] : List String) = 0 := by
  decide

/-- C9 (amended): when SHAPE data is active, or a constraint file is given
without batch-constraint mode, the record loop breaks after the first
record, so a stream yielding at least one record processes exactly one. -/
theorem c9_single_record (opt : Options) (records : List String)
    (hbrk : record_loop_break opt = true) (hne : records ≠ []) :
    records_processed opt records = 1 := by
  cases records with
  | nil => exact absurd rfl hne
  | cons r rest => simp [records_processed, hbrk]

/-- C9 witness: a two-record stream under SHAPE processes exactly one
record. -/
theorem c9_single_record_witness :
    records_processed optC9 ["ACGU", "GGCC"] = 1 :=
  c9_single_record optC9 ["ACGU", "GGCC"] (by decide) (by decide)

/-- C10: a user-supplied dot-plot probability threshold is clamped into
[0, 1] (negative arguments give 0, arguments above 1 give 1), and without
the option the default threshold is 1e-5. -/
theorem c10_bppm_threshold_clamp :
    (∀ a : ℚ, 0 ≤ bppm_threshold true a init_default_options ∧
        bppm_threshold true a init_default_options ≤ 1) ∧
    (∀ a : ℚ, a < 0 → bppm_threshold true a init_default_options = 0) ∧
    (∀ a : ℚ, 1 < a → bppm_threshold true a init_default_options = 1) ∧
    (∀ a : ℚ, bppm_threshold false a init_default_options = 1/100000) := by
  have hdef : ∀ a : ℚ, bppm_threshold true a init_default_options = MIN2 1 (MAX2 0 a) :=
    fun a => rfl
  refine ⟨fun a => ?_, fun a ha => ?_, fun a ha => ?_, fun a => rfl⟩
  · rw [hdef]; unfold MIN2 MAX2; split_ifs <;> constructor <;> linarith
  · rw [hdef]; unfold MIN2 MAX2; split_ifs <;> linarith
  · rw [hdef]; unfold MIN2 MAX2; split_ifs <;> linarith

/-- C10 witness: a negative argument is clamped to 0 and an argument above
one is clamped to 1. -/
theorem c10_bppm_threshold_clamp_witness :
    bppm_threshold true (-1) init_default_options = 0 ∧
    bppm_threshold true 2 init_default_options = 1 :=
  ⟨c10_bppm_threshold_clamp.2.1 (-1) (by norm_num),
   c10_bppm_threshold_clamp.2.2.1 2 (by norm_num)⟩

/-- C2 witness: the too-long branch aborts fatally, and the too-short
branch only warns. -/
theorem c2_constraint_length_witness :
    (process_record (fun s _ => s) (fun _ => false) true true optC2 2
        (some "in.fa") none (some "............") 10 "ACGUACGUAC" 0 (fun _ => 0)).2
      = some Fatal.constraintTooLong ∧
    Event.warningMsg "structure constraint is shorter than sequence" ∈
      (process_record (fun s _ => s) (fun _ => false) true true init_default_options 2
          none none (some "..") 4 "ACGU" 0 (fun _ => 0)).1 :=
  ⟨((c2_constraint_length (fun s _ => s) (fun _ => false) true true optC2 2
      (some "in.fa") none (some "............") 10 "ACGUACGUAC" 0 (fun _ => 0)
      "............" rfl rfl (by decide) rfl).1 (by decide)).1,
   ((c2_constraint_length (fun s _ => s) (fun _ => false) true true init_default_options 2
      none none (some "..") 4 "ACGU" 0 (fun _ => 0)
      ".." rfl rfl (by decide) rfl).2 (by decide) (by decide)).1⟩

/-- C4: with the partition function requested, an odd dangle model makes
the code re-evaluate the MFE structure under dangles 2, use exactly that
reference energy for the Boltzmann rescaling, call the partition function
under the restored original dangle setting, and leave the displayed MFE
energy untouched; with an even dangle model the original MFE energy is used
for rescaling and no re-evaluation happens at all. -/
theorem c4_pf_dangle_rescale (san : String → Option String → String)
    (sscanf_ok : List Char → Bool) (register_ok : Bool)
    (fold_constrained : Bool) (opt : Options) (dangles : ℕ)
    (input_filename SEQ_ID cstruc : Option String) (seqLen : ℕ)
    (orig_sequence : String) (mfe : ℚ) (eval_energy : ℕ → ℚ)
    (hos : (output_setup san opt input_filename SEQ_ID).2 = none)
    (hac : (if fold_constrained then
              apply_constraints_model seqLen opt.constraint_file cstruc
                opt.constraint_enforce opt.constraint_canonical
            else ([], none)).2 = none)
    (hfeas : (((fold_constrained && opt.constraint_file.isSome) || opt.cmds) &&
        decide (mfe = infeasible_sentinel)) = false)
    (hpf : opt.pf = true) (hlucky : opt.lucky = false) :
    (dangles % 2 = 1 →
        Event.mfePrinted mfe ∈ (process_record san sscanf_ok register_ok fold_constrained
            opt dangles input_filename SEQ_ID cstruc seqLen orig_sequence mfe eval_energy).1 ∧
        Event.evalStructureAt 2 ∈ (process_record san sscanf_ok register_ok fold_constrained
            opt dangles input_filename SEQ_ID cstruc seqLen orig_sequence mfe eval_energy).1 ∧
        Event.rescaleWith (eval_energy 2) ∈ (process_record san sscanf_ok register_ok
            fold_constrained opt dangles input_filename SEQ_ID cstruc seqLen orig_sequence
            mfe eval_energy).1 ∧
        Event.pfCalledAt dangles ∈ (process_record san sscanf_ok register_ok fold_constrained
            opt dangles input_filename SEQ_ID cstruc seqLen orig_sequence mfe eval_energy).1) ∧
    (dangles % 2 = 0 →
        Event.rescaleWith mfe ∈ (process_record san sscanf_ok register_ok fold_constrained
            opt dangles input_filename SEQ_ID cstruc seqLen orig_sequence mfe eval_energy).1 ∧
        ∀ d, Event.evalStructureAt d ∉ (process_record san sscanf_ok register_ok
            fold_constrained opt dangles input_filename SEQ_ID cstruc seqLen orig_sequence
            mfe eval_energy).1) := by
  constructor
  · intro hodd
    refine ⟨?_, ?_, ?_, ?_⟩ <;>
      (simp only [process_record]
       rw [hos, hac]
       simp [hfeas, hlucky, hpf, pf_block, hodd])
  · intro heven
    constructor
    · simp only [process_record]
      rw [hos, hac]
      simp [hfeas, hlucky, hpf, pf_block, heven]
    · intro d
      simp only [process_record]
      rw [hos, hac]
      rcases hlig : opt.ligandMotif with _ | ms <;>
        cases hsh : opt.shape <;> cases hcm2 : opt.cmds <;> cases hnp : opt.noPS <;>
        cases hfc2 : fold_constrained <;>
          simp [hfeas, hlucky, hpf, pf_block, heven, hlig, hsh, hcm2, hnp,
                eval_not_in_output_setup, eval_not_in_apply_constraints,
                eval_not_in_motif_events] <;>
          (intro h
           split at h <;>
             simp [eval_not_in_output_setup, eval_not_in_apply_constraints,
                   eval_not_in_motif_events] at h)

/-- Concrete options for the C4 witness: partition function on. -/
def optC4 : Options := { init_default_options with pf := true }

/-- C4 witness: under the odd dangle model 1, the displayed MFE energy is
the engine result 0 while the rescaling reference is the dangles-2
re-evaluation (here 2). -/
theorem c4_pf_dangle_rescale_witness :
    Event.mfePrinted 0 ∈ (process_record (fun s _ => s) (fun _ => false) true false optC4 1
        none none none 4 "ACGU" 0 (fun _ => (5 : ℚ))).1 ∧
    Event.rescaleWith 5 ∈ (process_record (fun s _ => s) (fun _ => false) true false optC4 1
        none none none 4 "ACGU" 0 (fun _ => (5 : ℚ))).1 := by
  have h := (c4_pf_dangle_rescale (fun s _ => s) (fun _ => false) true false optC4 1
      none none none 4 "ACGU" 0 (fun _ => (5 : ℚ))
      (by decide) (by decide) (by decide) rfl rfl).1 rfl
  exact ⟨h.1, h.2.2.1⟩

/-- C7: a malformed ligand-motif specification (fields of unequal length,
empty subsequence, or an energy token the C scanner rejects) makes parsing
fail with the skip warning, the motif is never registered, and the record
still folds to completion without any fatal error. -/
theorem c7_malformed_motif_recoverable (san : String → Option String → String)
    (sscanf_ok : List Char → Bool) (register_ok : Bool)
    (fold_constrained : Bool) (opt : Options) (dangles : ℕ)
    (input_filename SEQ_ID cstruc : Option String) (seqLen : ℕ)
    (orig_sequence : String) (mfe : ℚ) (eval_energy : ℕ → ℚ) (ms : String)
    (hlig : opt.ligandMotif = some ms)
    (hcommas : 2 ≤ ms.data.count ',')
    (hos : (output_setup san opt input_filename SEQ_ID).2 = none)
    (hfc : fold_constrained = false) (hcmds : opt.cmds = false)
    (hmal : (add_ligand_motif_fields ms.data).seq.length
              ≠ (add_ligand_motif_fields ms.data).struc.length ∨
            (add_ligand_motif_fields ms.data).seq.length = 0 ∨
            sscanf_ok (add_ligand_motif_fields ms.data).energyTok = false) :
    (process_record san sscanf_ok register_ok fold_constrained opt dangles
        input_filename SEQ_ID cstruc seqLen orig_sequence mfe eval_energy).2 = none ∧
    Event.warningMsg "Malformatted ligand motif! Skipping stabilizing motif."
        ∈ (process_record san sscanf_ok register_ok fold_constrained opt dangles
            input_filename SEQ_ID cstruc seqLen orig_sequence mfe eval_energy).1 ∧
    Event.motifRegistered ∉ (process_record san sscanf_ok register_ok fold_constrained
        opt dangles input_filename SEQ_ID cstruc seqLen orig_sequence mfe eval_energy).1 ∧
    Event.mfeComputed ∈ (process_record san sscanf_ok register_ok fold_constrained
        opt dangles input_filename SEQ_ID cstruc seqLen orig_sequence mfe eval_energy).1 := by
  have herr := add_ligand_motif_error_of_malformed sscanf_ok ms.data hmal
  have hme := motif_events_error sscanf_ok register_ok ms.data herr
  subst hfc
  refine ⟨?_, ?_, ?_, ?_⟩
  · simp only [process_record]
    rw [hos]
    simp [hcmds]
  · simp only [process_record]
    rw [hos]
    simp [hlig, hcmds, hme.1]
  · simp only [process_record]
    rw [hos]
    cases hsh : opt.shape <;> cases hnp : opt.noPS <;> cases hlk : opt.lucky <;>
      cases hpf2 : opt.pf <;>
        simp [hlig, hcmds, hsh, hnp, hlk, hpf2, hme.2,
              reg_not_in_output_setup, reg_not_in_pf_block]
  · simp only [process_record]
    rw [hos]
    simp [hcmds]

/-- Concrete options for the C7 witness: a motif whose subsequence and
substructure lengths differ. -/
def optC7 : Options := { init_default_options with ligandMotif := some "A,BB,1" }

/-- C7 witness: the malformed motif "A,BB,1" is skipped with a warning and
the record folds to completion. -/
theorem c7_malformed_motif_recoverable_witness :
    (process_record (fun s _ => s) (fun _ => true) true false optC7 2
        none none none 4 "ACGU" 0 (fun _ => 0)).2 = none ∧
    Event.warningMsg "Malformatted ligand motif! Skipping stabilizing motif."
        ∈ (process_record (fun s _ => s) (fun _ => true) true false optC7 2
            none none none 4 "ACGU" 0 (fun _ => 0)).1 ∧
    Event.motifRegistered ∉ (process_record (fun s _ => s) (fun _ => true) true false optC7 2
        none none none 4 "ACGU" 0 (fun _ => 0)).1 ∧
    Event.mfeComputed ∈ (process_record (fun s _ => s) (fun _ => true) true false optC7 2
        none none none 4 "ACGU" 0 (fun _ => 0)).1 :=
  c7_malformed_motif_recoverable (fun s _ => s) (fun _ => true) true false optC7 2
    none none none 4 "ACGU" 0 (fun _ => 0) "A,BB,1" rfl (by decide) (by decide) rfl rfl
    (Or.inl (by decide))

end RNAfold
